import Mathlib

/-!
Verification of the core of the national-parks scraper program
(file proj2_nps.py): disk-backed request cache, deterministic
cache-key builder, read-through fetchers, and document-to-record
extractors.

External collaborators are abstracted, as the specification directs:
the HTTP transport is an oracle function from request to response,
HTML documents are records of the fields the extractor reads, and the
cache file together with the JSON codec is a file-state value that is
either absent, unreadable, readable but not JSON, or the serialization
of a mapping (json.dumps always succeeds and json.loads inverts it).
Python dictionaries keyed by strings are association lists with
update-in-place insertion, matching dict lookup and iteration
semantics.
-/

/-- JSON values, the shape of parsed API responses and cache values. -/
inductive Json where
  | null
  | bool (b : Bool)
  | num (n : Int)
  | str (s : String)
  | arr (l : List Json)
  | obj (l : List (String × Json))

/-- A cached value is either raw response text (from requests .text)
or a parsed JSON value (from requests .json()). -/
inductive CacheVal where
  | text (s : String)
  | json (j : Json)

/-- Python exception kinds the embedded code can raise. -/
inductive PyErr where
  | fileNotFound
  | ioError
  | valueError
  | keyError
  | typeError
  | attributeError
deriving DecidableEq

/-- Lookup in a Python dict modelled as an association list. -/
def dictLookup {α : Type} : List (String × α) → String → Option α
  | [], _ => none
  | (k, v) :: rest, key => if k = key then some v else dictLookup rest key

/-- Python dict assignment d[k] = v: replaces the value in place when
the key is present, appends at the end otherwise. -/
def dictInsert {α : Type} : List (String × α) → String → α → List (String × α)
  | [], key, v => [(key, v)]
  | (k, w) :: rest, key, v =>
      if k = key then (key, v) :: rest else (k, w) :: dictInsert rest key v

/-- The in-memory cache mapping (the shape of CACHE_DICT). -/
def CacheMap : Type := List (String × CacheVal)

/-- State of the cache file on disk, with the JSON codec abstracted:
the file is absent, unreadable, holds content that is not valid JSON,
or holds the serialization of a mapping. -/
inductive FileState where
  | absent
  | unreadable
  | malformed (content : String)
  | json (m : CacheMap)

/-- The body of the try block in open_cache: open and read the file
(raises when absent or unreadable), then json.loads the contents
(raises ValueError when the content is not JSON). -/
def open_cache_attempt : FileState → Except PyErr CacheMap
  | .absent => .error .fileNotFound
  | .unreadable => .error .ioError
  | .malformed _ => .error .valueError
  | .json m => .ok m

/-- open_cache from proj2_nps.py: try to read and parse the cache
file; on any exception the except branch returns the empty dict. -/
def open_cache (fs : FileState) : CacheMap :=
  match open_cache_attempt fs with
  | .ok cache => cache
  | .error _ => []

/-- save_cache from proj2_nps.py: json.dumps the whole mapping and
overwrite the file with it. -/
def save_cache (cache : CacheMap) : FileState :=
  .json cache

/-- The put operation of the cache (the inlined pattern
cache[key] = value followed by save_cache(cache) at lines 84 to 85 and
279 to 280 of the source): insert, then flush the entire mapping. -/
def put (cache : CacheMap) (key : String) (v : CacheVal) : CacheMap × FileState :=
  let cache2 := dictInsert cache key v
  (cache2, save_cache cache2)

/-- construct_unique_key from proj2_nps.py: format every parameter as
name underscore value, sort the fragments, join with underscore and
prefix the base url and a separator. Python list.sort on strings is a
lexicographic sort; any sort for a linear order yields the same sorted
list, so it is embedded as insertion sort over the string order. -/
def construct_unique_key (baseurl : String) (params : List (String × String)) : String :=
  let param_strings := params.map fun p => p.1 ++ "_" ++ p.2
  let connector := "_"
  let sorted_strings := List.insertionSort (fun a b : String => a ≤ b) param_strings
  baseurl ++ connector ++ connector.intercalate sorted_strings

/-- Side effects of one read-through fetch: number of time.sleep
calls, of network requests, and of save_cache flushes. -/
structure Effects where
  sleeps : Nat
  netCalls : Nat
  saves : Nat
deriving DecidableEq

/-- Result of make_url_request_using_cache: returned value, in-memory
cache after the call, cache file after the call, effects performed. -/
structure FetchResult where
  value : CacheVal
  cache : CacheMap
  disk : FileState
  eff : Effects

/-- make_url_request_using_cache from proj2_nps.py. The network is the
oracle net mapping a url to the response body text. On a hit the
cached value is returned with no sleep, no request and no save; on a
miss the code sleeps one second, performs the request, stores the
response text under the url, flushes the cache and returns the stored
value (cache[url] directly after the assignment is the response
text). -/
def make_url_request_using_cache (net : String → String) (url : String)
    (cache : CacheMap) (disk : FileState) : FetchResult :=
  match dictLookup cache url with
  | some v => ⟨v, cache, disk, ⟨0, 0, 0⟩⟩
  | none =>
      let response_text := net url
      let cache2 := dictInsert cache url (CacheVal.text response_text)
      ⟨CacheVal.text response_text, cache2, save_cache cache2, ⟨1, 1, 1⟩⟩

/-- A national site record (class NationalSite). -/
structure NationalSite where
  category : String
  name : String
  address : String
  zipcode : String
  phone : String
deriving DecidableEq

/-- The info method of NationalSite. -/
def NationalSite.info (s : NationalSite) : String :=
  s.name ++ " (" ++ s.category ++ "): " ++ s.address ++ " " ++ s.zipcode

def BASE_URL : String := "https://www.nps.gov"

def STATES_INDEX_PATH : String := "/index.htm"

/-- Python str.strip: drop whitespace from both ends. -/
def pyStrip (s : String) : String :=
  String.mk
    (((s.data.dropWhile Char.isWhitespace).reverse.dropWhile Char.isWhitespace).reverse)

/-- What a BeautifulSoup find of a tag yields: the text of the tag
when the marker is present, raising AttributeError (None has no
attribute text) when find returned None. -/
def findText (found : Option String) : Except PyErr String :=
  match found with
  | some s => .ok s
  | none => .error .attributeError

/-- A site detail document, abstracted to the six fields the extractor
reads; a field is none when the structural marker is absent. -/
structure SiteDoc where
  heroTitle : Option String
  heroDesignation : Option String
  addressLocality : Option String
  addressRegion : Option String
  postalCode : Option String
  telephone : Option String

/-- get_site_instance from proj2_nps.py, extraction part (the fetch of
the page html is make_url_request_using_cache). Title, designation and
telephone lookups are unguarded and raise when the marker is absent;
the locality and region lookups sit in a try block whose except branch
sets the address sentinel, and likewise for the postal code. -/
def get_site_instance (doc : SiteDoc) : Except PyErr NationalSite := do
  let site_name ← findText doc.heroTitle
  let site_category ← findText doc.heroDesignation
  let site_address :=
    match doc.addressLocality, doc.addressRegion with
    | some city, some state => pyStrip city ++ ", " ++ pyStrip state
    | _, _ => "No address"
  let site_zip :=
    match doc.postalCode with
    | some z => pyStrip z
    | none => "No zipcode"
  let site_phone ← findText doc.telephone
  return ⟨pyStrip site_category, pyStrip site_name, site_address, site_zip,
    pyStrip site_phone⟩

/-- Python str.lower for the characters handled by Char.toLower. -/
def strLower (s : String) : String :=
  String.mk (s.data.map Char.toLower)

/-- One list item of the state dropdown: the anchor text and its href. -/
structure RegionEntry where
  text : String
  href : String
deriving DecidableEq

/-- build_state_url_dict from proj2_nps.py, extraction part: for each
dropdown entry, map the stripped lower-cased anchor text to the base
url concatenated with the href. -/
def build_state_url_dict (states_list : List RegionEntry) : List (String × String) :=
  states_list.foldl
    (fun states_dict state =>
      dictInsert states_dict (strLower (pyStrip state.text)) (BASE_URL ++ state.href))
    []

/-- The process state the fetchers touch: the in-memory mapping
CACHE_DICT loaded at line 88 at process start, and the cache file. -/
structure ProcState where
  mem : CacheMap
  disk : FileState

/-- Result of get_nearby_places: returned value, process state after
the call, number of network requests performed. -/
structure ApiFetchResult where
  value : CacheVal
  state : ProcState
  netCalls : Nat

def mapquest_url : String := "http://www.mapquestapi.com/search/v2/radius"

/-- The params dict built in get_nearby_places, with each value
already formatted as construct_unique_key formats it. The api key is
the credential supplied by the environment (secrets.API_KEY). -/
def mapquest_params (api_key : String) (site_object : NationalSite) :
    List (String × String) :=
  [("key", api_key), ("origin", site_object.zipcode), ("radius", "10"),
   ("units", "m"), ("maxMatches", "10"), ("ambiguities", "ignore"),
   ("outFormat", "json")]

/-- get_nearby_places from proj2_nps.py. The network is the oracle
netJson mapping the query params to the parsed JSON reply. Note the
statement CACHE_DICT = open_cache() inside the function body: it binds
a local dict freshly loaded from the cache file, so the function
consults and updates the file-backed copy, not the process-start
in-memory mapping, which it leaves untouched. There is no sleep in
this function. -/
def get_nearby_places (api_key : String) (netJson : List (String × String) → Json)
    (site_object : NationalSite) (st : ProcState) : ApiFetchResult :=
  let params := mapquest_params api_key site_object
  let cache := open_cache st.disk
  let uniq_key := construct_unique_key mapquest_url params
  match dictLookup cache uniq_key with
  | some v => ⟨v, ⟨st.mem, st.disk⟩, 0⟩
  | none =>
      let v := CacheVal.json (netJson params)
      let cache2 := dictInsert cache uniq_key v
      ⟨v, ⟨st.mem, save_cache cache2⟩, 1⟩

/-- Python truthiness of a JSON value: None, False, zero, the empty
string, the empty array and the empty object are falsy. -/
def truthy : Json → Bool
  | .null => false
  | .bool b => b
  | .num n => n != 0
  | .str s => s != ""
  | .arr l => !l.isEmpty
  | .obj l => !l.isEmpty

/-- Python subscript j[k] on a parsed JSON value: KeyError when the
key is absent from the object, TypeError when the value is not an
object. -/
def getItem (j : Json) (key : String) : Except PyErr Json :=
  match j with
  | .obj l =>
      match dictLookup l key with
      | some v => .ok v
      | none => .error .keyError
  | _ => .error .typeError

/-- One displayed nearby place, as derived by formatted_nearby_places
(name, category, address, city, each a JSON value from the reply or a
sentinel string). -/
structure NearbyPlace where
  name : Json
  category : Json
  address : Json
  city : Json

/-- The per-entry body of the loop in formatted_nearby_places: read
fields, then name (unguarded subscript), gate the category on the
truthiness of group_sic_code_ext, and substitute the sentinels for
falsy address and city. Every subscript raises KeyError when its key
is absent. -/
def derive_nearby_place (entry : Json) : Except PyErr NearbyPlace :=
  match getItem entry "fields" with
  | .error e => .error e
  | .ok fields =>
    match getItem fields "name" with
    | .error e => .error e
    | .ok nm =>
      match getItem fields "group_sic_code_ext" with
      | .error e => .error e
      | .ok gsce =>
        match
          if truthy gsce then getItem fields "group_sic_code_name_ext"
          else .ok (Json.str "no category") with
        | .error e => .error e
        | .ok category =>
          match getItem fields "address" with
          | .error e => .error e
          | .ok addr =>
            let address := if truthy addr then addr else Json.str "no address"
            match getItem fields "city" with
            | .error e => .error e
            | .ok cty =>
              let city := if truthy cty then cty else Json.str "no city"
              .ok ⟨nm, category, address, city⟩

/-- formatted_nearby_places from proj2_nps.py: iterate over the
searchResults array of the api response, deriving one place per
entry. -/
def formatted_nearby_places (api_resp : Json) : Except PyErr (List NearbyPlace) := do
  let results ← getItem api_resp "searchResults"
  match results with
  | .arr l => l.mapM derive_nearby_place
  | _ => .error .typeError

/-- Python str.isnumeric restricted to the decimal digits: nonempty
and all characters digits (a minus sign is not numeric). -/
def pyIsNumeric (s : String) : Bool :=
  !s.isEmpty && s.data.all Char.isDigit

/-- Python int() on a digit string. -/
def pyInt (s : String) : Nat :=
  s.data.foldl (fun n c => 10 * n + (c.toNat - 48)) 0

/-- Python list subscript with an Int index: a negative index counts
from the end of the list; out of range raises (none). -/
def pyGetItem {α : Type} (l : List α) (i : Int) : Option α :=
  if 0 ≤ i then l.get? i.toNat
  else if i.natAbs ≤ l.length then l.get? (l.length - i.natAbs)
  else none

/-- Outcome of one iteration of the inner selection loop. -/
inductive StepResult (α : Type) where
  | exitLoop
  | back
  | selected (site : α)
  | outOfRange
  | nonNumeric
  | runtimeError
deriving DecidableEq

/-- One iteration of the inner interactive loop (lines 356 to 376 of
proj2_nps.py) on a given input line: exit and back leave the loop; a
numeric input passes the sole guard int(input) le len(sites) and is
then used as the index int(input) - 1 into the list (selected means
the site is passed to the nearby-places lookup); indices the guard
admits but that are out of range raise IndexError, caught by the
enclosing except (runtimeError, message and re-prompt); inputs
rejected by the guard print the out-of-range message and re-prompt;
any other input leaves the inner loop. -/
def inner_loop_step {α : Type} (user_input : String) (state_sites : List α) :
    StepResult α :=
  if user_input = "exit" then .exitLoop
  else if user_input = "back" then .back
  else if pyIsNumeric user_input then
    if (pyInt user_input : Int) ≤ (state_sites.length : Int) then
      match pyGetItem state_sites ((pyInt user_input : Int) - 1) with
      | some site => .selected site
      | none => .runtimeError
    else .outOfRange
  else .nonNumeric

/-! ## Helper lemmas -/

theorem dictLookup_dictInsert_self {α : Type} (c : List (String × α)) (k : String) (v : α) :
    dictLookup (dictInsert c k v) k = some v := by
  induction c with
  | nil => simp [dictInsert, dictLookup]
  | cons p rest ih =>
      obtain ⟨a, b⟩ := p
      by_cases h : a = k
      · simp [dictInsert, h, dictLookup]
      · simp [dictInsert, h, dictLookup, ih]

theorem dictLookup_dictInsert_ne {α : Type} (c : List (String × α)) (k q : String) (v : α)
    (h : q ≠ k) : dictLookup (dictInsert c k v) q = dictLookup c q := by
  have hkq : ¬k = q := fun e => h e.symm
  induction c with
  | nil => simp [dictInsert, dictLookup, hkq]
  | cons p rest ih =>
      obtain ⟨a, b⟩ := p
      by_cases hak : a = k
      · subst hak
        simp [dictInsert, dictLookup, hkq]
      · simp [dictInsert, hak, dictLookup, ih]

theorem insertionSortString_perm_eq {l1 l2 : List String} (h : l1.Perm l2) :
    List.insertionSort (fun a b : String => a ≤ b) l1
      = List.insertionSort (fun a b : String => a ≤ b) l2 :=
  List.eq_of_perm_of_sorted
    (((List.perm_insertionSort _ l1).trans h).trans (List.perm_insertionSort _ l2).symm)
    (List.sorted_insertionSort _ l1) (List.sorted_insertionSort _ l2)

/-! ## Claim theorems -/

/-- C1: for every base identifier and every parameter mapping,
construct_unique_key yields the same string regardless of the
insertion order of the parameters: permuting the parameter list leaves
the key unchanged. -/
theorem construct_unique_key_order_independent (baseurl : String)
    {params1 params2 : List (String × String)} (h : params1.Perm params2) :
    construct_unique_key baseurl params1 = construct_unique_key baseurl params2 := by
  have hs := insertionSortString_perm_eq (h.map fun p => p.1 ++ "_" ++ p.2)
  simp only [construct_unique_key]
  rw [hs]

/-- C1 witness: the two insertion orders of the spec example produce
the same key. -/
theorem construct_unique_key_order_independent_witness :
    ([("x", "1"), ("y", "2")] : List (String × String)).Perm [("y", "2"), ("x", "1")] ∧
    construct_unique_key "B" [("x", "1"), ("y", "2")]
      = construct_unique_key "B" [("y", "2"), ("x", "1")] :=
  ⟨by decide, construct_unique_key_order_independent "B" (by decide)⟩

/-- C3: put of a key and value (insert, then serialize the whole
mapping to the file) followed by a fresh load of the persisted file
yields a mapping containing that key mapped to that value. -/
theorem cache_round_trip (cache : CacheMap) (k : String) (v : CacheVal) :
    dictLookup (open_cache (put cache k v).2) k = some v := by
  simp [put, save_cache, open_cache, open_cache_attempt, dictLookup_dictInsert_self]

/-- C4: for every state of the backing file, open_cache returns the
empty mapping whenever the file is not a parseable JSON mapping
(absent, unreadable, malformed), without surfacing the underlying
exception, and returns the parsed mapping exactly when the whole file
content parses as JSON. -/
theorem open_cache_silent_recovery (fs : FileState) :
    ((∀ m, fs ≠ FileState.json m) → open_cache fs = []) ∧
    (∀ m, fs = FileState.json m → open_cache fs = m) := by
  constructor
  · intro h
    cases fs with
    | absent => rfl
    | unreadable => rfl
    | malformed s => rfl
    | json m => exact absurd rfl (h m)
  · intro m h
    subst h
    rfl

/-- C4 witness: a malformed file loads as the empty mapping and a
well-formed file loads as its contents. -/
theorem open_cache_silent_recovery_witness :
    (∀ m, FileState.malformed "oops" ≠ FileState.json m) ∧
    open_cache (FileState.malformed "oops") = [] ∧
    FileState.json [("k", CacheVal.text "v")]
      = FileState.json [("k", CacheVal.text "v")] ∧
    open_cache (FileState.json [("k", CacheVal.text "v")]) = [("k", CacheVal.text "v")] :=
  ⟨fun _ h => FileState.noConfusion h,
   (open_cache_silent_recovery (FileState.malformed "oops")).1
     (fun _ h => FileState.noConfusion h),
   rfl,
   (open_cache_silent_recovery (FileState.json [("k", CacheVal.text "v")])).2 _ rfl⟩

/-- C2: on a cache hit both fetchers return the cached value with no
sleep, no network request and no cache write, leaving the in-memory
mapping and the cache file unchanged; starting from a miss, two
successive calls with the same key return identical values and
perform exactly one network request in total (one on the first call,
none on the second). -/
theorem cache_hit_idempotent :
    (∀ (net : String → String) (url : String) (cache : CacheMap) (disk : FileState)
        (v : CacheVal), dictLookup cache url = some v →
        make_url_request_using_cache net url cache disk = ⟨v, cache, disk, ⟨0, 0, 0⟩⟩) ∧
    (∀ (net : String → String) (url : String) (cache : CacheMap) (disk : FileState),
        dictLookup cache url = none →
        (make_url_request_using_cache net url cache disk).eff.netCalls = 1 ∧
        (make_url_request_using_cache net url
            (make_url_request_using_cache net url cache disk).cache
            (make_url_request_using_cache net url cache disk).disk).value
          = (make_url_request_using_cache net url cache disk).value ∧
        (make_url_request_using_cache net url
            (make_url_request_using_cache net url cache disk).cache
            (make_url_request_using_cache net url cache disk).disk).eff
          = ⟨0, 0, 0⟩) ∧
    (∀ (api_key : String) (netJson : List (String × String) → Json)
        (site : NationalSite) (st : ProcState) (v : CacheVal),
        dictLookup (open_cache st.disk)
            (construct_unique_key mapquest_url (mapquest_params api_key site)) = some v →
        get_nearby_places api_key netJson site st = ⟨v, st, 0⟩) ∧
    (∀ (api_key : String) (netJson : List (String × String) → Json)
        (site : NationalSite) (st : ProcState),
        dictLookup (open_cache st.disk)
            (construct_unique_key mapquest_url (mapquest_params api_key site)) = none →
        (get_nearby_places api_key netJson site st).netCalls = 1 ∧
        (get_nearby_places api_key netJson site
            (get_nearby_places api_key netJson site st).state).value
          = (get_nearby_places api_key netJson site st).value ∧
        (get_nearby_places api_key netJson site
            (get_nearby_places api_key netJson site st).state).netCalls = 0) := by
  refine ⟨?_, ?_, ?_, ?_⟩
  · intro net url cache disk v h
    simp [make_url_request_using_cache, h]
  · intro net url cache disk h
    simp [make_url_request_using_cache, h, dictLookup_dictInsert_self]
  · intro api_key netJson site st v h
    simp [get_nearby_places, h]
  · intro api_key netJson site st h
    have e1 : get_nearby_places api_key netJson site st =
        ⟨CacheVal.json (netJson (mapquest_params api_key site)),
         ⟨st.mem,
          save_cache (dictInsert (open_cache st.disk)
            (construct_unique_key mapquest_url (mapquest_params api_key site))
            (CacheVal.json (netJson (mapquest_params api_key site))))⟩, 1⟩ := by
      simp [get_nearby_places, h]
    rw [e1]
    refine ⟨rfl, ?_, ?_⟩ <;>
      simp [get_nearby_places, open_cache, open_cache_attempt, save_cache,
        dictLookup_dictInsert_self]

/-- C2 witness: concrete hit and miss instances for both fetchers. -/
theorem cache_hit_idempotent_witness :
    dictLookup [("u", CacheVal.text "v")] "u" = some (CacheVal.text "v") ∧
    make_url_request_using_cache (fun _ => "r") "u" [("u", CacheVal.text "v")]
        FileState.absent
      = ⟨CacheVal.text "v", [("u", CacheVal.text "v")], FileState.absent, ⟨0, 0, 0⟩⟩ ∧
    dictLookup ([] : CacheMap) "u" = none ∧
    (make_url_request_using_cache (fun _ => "r") "u" [] FileState.absent).eff.netCalls = 1 ∧
    dictLookup (open_cache FileState.absent)
        (construct_unique_key mapquest_url
          (mapquest_params "k" ⟨"c", "n", "a", "z", "p"⟩)) = none ∧
    (get_nearby_places "k" (fun _ => Json.null) ⟨"c", "n", "a", "z", "p"⟩
        ⟨[], FileState.absent⟩).netCalls = 1 ∧
    (get_nearby_places "k" (fun _ => Json.null) ⟨"c", "n", "a", "z", "p"⟩
        (get_nearby_places "k" (fun _ => Json.null) ⟨"c", "n", "a", "z", "p"⟩
          ⟨[], FileState.absent⟩).state).netCalls = 0 :=
  ⟨rfl,
   cache_hit_idempotent.1 (fun _ => "r") "u" [("u", CacheVal.text "v")]
     FileState.absent (CacheVal.text "v") rfl,
   rfl,
   (cache_hit_idempotent.2.1 (fun _ => "r") "u" [] FileState.absent rfl).1,
   rfl,
   (cache_hit_idempotent.2.2.2 "k" (fun _ => Json.null) ⟨"c", "n", "a", "z", "p"⟩
     ⟨[], FileState.absent⟩ rfl).1,
   (cache_hit_idempotent.2.2.2 "k" (fun _ => Json.null) ⟨"c", "n", "a", "z", "p"⟩
     ⟨[], FileState.absent⟩ rfl).2.2⟩

/-- C5 counterexample: on a site detail document lacking the
structured address and postal-code markup, the extractor yields the
sentinels with a capital N, namely No address and No zipcode, which
differ from the claimed lower-case sentinels no address and
no zipcode. -/
theorem site_sentinel_spelling_counterexample :
    (get_site_instance ⟨some "T", some "C", none, none, none, some "P"⟩).map
        NationalSite.address = Except.ok "No address" ∧
    (get_site_instance ⟨some "T", some "C", none, none, none, some "P"⟩).map
        NationalSite.zipcode = Except.ok "No zipcode" ∧
    "No address" ≠ "no address" ∧
    "No zipcode" ≠ "no zipcode" :=
  ⟨rfl, rfl, by decide, by decide⟩

/-- C5 (amended): for every site detail document whose required
fields are present, when the locality or region markup is absent the
extracted address is the sentinel No address, and when the postal-code
markup is absent the extracted zipcode is the sentinel No zipcode;
in both cases extraction still succeeds, so the lookup failures never
propagate. -/
theorem site_optional_sentinels (t c p : String) (ol org opc : Option String) :
    ((ol = none ∨ org = none) →
      (get_site_instance ⟨some t, some c, ol, org, opc, some p⟩).map
          NationalSite.address = Except.ok "No address") ∧
    (opc = none →
      (get_site_instance ⟨some t, some c, ol, org, opc, some p⟩).map
          NationalSite.zipcode = Except.ok "No zipcode") := by
  constructor
  · rintro (rfl | rfl)
    · cases org <;> rfl
    · cases ol <;> rfl
  · rintro rfl
    rfl

/-- C5 witness: a concrete document lacking the locality and the
postal code. -/
theorem site_optional_sentinels_witness :
    ((none : Option String) = none ∨ (some "MI" : Option String) = none) ∧
    (get_site_instance ⟨some "T", some "C", none, some "MI", none, some "P"⟩).map
        NationalSite.address = Except.ok "No address" ∧
    (none : Option String) = none ∧
    (get_site_instance ⟨some "T", some "C", none, some "MI", none, some "P"⟩).map
        NationalSite.zipcode = Except.ok "No zipcode" :=
  ⟨Or.inl rfl,
   (site_optional_sentinels "T" "C" "P" none (some "MI") none).1 (Or.inl rfl),
   rfl,
   (site_optional_sentinels "T" "C" "P" none (some "MI") none).2 rfl⟩

/-- C6: for every site detail document in which the title marker is
absent, and likewise for every document in which the telephone marker
is absent, get_site_instance raises an extraction error propagated to
the caller instead of returning a record. -/
theorem site_required_field_fails (oc ol org opc : Option String) :
    (∀ oph, ∃ e, get_site_instance ⟨none, oc, ol, org, opc, oph⟩ = Except.error e) ∧
    (∀ ot, ∃ e, get_site_instance ⟨ot, oc, ol, org, opc, none⟩ = Except.error e) := by
  constructor
  · intro oph
    exact ⟨.attributeError, rfl⟩
  · intro ot
    rcases ot with _ | t <;> rcases oc with _ | c <;> exact ⟨.attributeError, rfl⟩

/-- Folding the dropdown entries over a dict leaves unaffected the
lookup of any key that none of the entries normalizes to. -/
theorem build_state_fold_lookup_of_not_mem (entries : List RegionEntry)
    (acc : List (String × String)) (key : String)
    (h : ∀ x ∈ entries, strLower (pyStrip x.text) ≠ key) :
    dictLookup
        (entries.foldl
          (fun d s => dictInsert d (strLower (pyStrip s.text)) (BASE_URL ++ s.href)) acc)
        key
      = dictLookup acc key := by
  induction entries generalizing acc with
  | nil => rfl
  | cons hd tl ih =>
      simp only [List.foldl_cons]
      rw [ih _ (fun x hx => h x (List.mem_cons_of_mem _ hx))]
      exact dictLookup_dictInsert_ne _ _ _ _
        (fun e => h hd (List.mem_cons_self _ _) e.symm)

/-- Folding the dropdown entries over a dict maps the normalized key
of every listed entry to its resolved link, provided no two entries
normalize to the same key. -/
theorem build_state_fold_mem (entries : List RegionEntry)
    (acc : List (String × String)) (e : RegionEntry) (he : e ∈ entries)
    (hnd : (entries.map fun x => strLower (pyStrip x.text)).Nodup) :
    dictLookup
        (entries.foldl
          (fun d s => dictInsert d (strLower (pyStrip s.text)) (BASE_URL ++ s.href)) acc)
        (strLower (pyStrip e.text))
      = some (BASE_URL ++ e.href) := by
  induction entries generalizing acc with
  | nil => cases he
  | cons hd tl ih =>
      have hnd2 : (∀ x ∈ tl, ¬strLower (pyStrip x.text) = strLower (pyStrip hd.text)) ∧
          (List.map (fun x => strLower (pyStrip x.text)) tl).Nodup := by
        simpa using hnd
      simp only [List.foldl_cons]
      rcases List.mem_cons.mp he with rfl | hmem
      · rw [build_state_fold_lookup_of_not_mem tl _ _ hnd2.1]
        exact dictLookup_dictInsert_self _ _ _
      · exact ih _ hmem hnd2.2

/-- C7: when the normalized display texts of the dropdown entries are
pairwise distinct, every entry of the region index document
contributes the mapping entry whose key is the display text trimmed
and lower-cased and whose value is the link resolved against the base
url of the site. -/
theorem build_state_url_dict_entry (entries : List RegionEntry)
    (hnd : (entries.map fun x => strLower (pyStrip x.text)).Nodup)
    (e : RegionEntry) (he : e ∈ entries) :
    dictLookup (build_state_url_dict entries) (strLower (pyStrip e.text))
      = some (BASE_URL ++ e.href) :=
  build_state_fold_mem entries [] e he hnd

/-- C7 witness: the document with the single entry Michigan mapping
to /state/mi/index.htm yields the key michigan mapping to the resolved
url. -/
theorem build_state_url_dict_entry_witness :
    ([⟨"Michigan", "/state/mi/index.htm"⟩] : List RegionEntry).map
        (fun x => strLower (pyStrip x.text)) = ["michigan"] ∧
    (["michigan"] : List String).Nodup ∧
    (⟨"Michigan", "/state/mi/index.htm"⟩ : RegionEntry)
      ∈ ([⟨"Michigan", "/state/mi/index.htm"⟩] : List RegionEntry) ∧
    dictLookup (build_state_url_dict [⟨"Michigan", "/state/mi/index.htm"⟩])
        (strLower (pyStrip "Michigan"))
      = some (BASE_URL ++ "/state/mi/index.htm") ∧
    strLower (pyStrip "Michigan") = "michigan" ∧
    BASE_URL ++ "/state/mi/index.htm" = "https://www.nps.gov/state/mi/index.htm" := by
  refine ⟨by decide, by decide, by decide, ?_, by decide, by decide⟩
  exact build_state_url_dict_entry [⟨"Michigan", "/state/mi/index.htm"⟩]
    (by decide) ⟨"Michigan", "/state/mi/index.htm"⟩ (by decide)

/-- C8 counterexample: a search result entry whose fields object lacks
the group_sic_code_ext key makes the derivation raise KeyError
instead of degrading to the sentinel category, so a key that is
entirely absent is not treated like a present-but-falsy value. -/
theorem nearby_place_missing_key_counterexample :
    derive_nearby_place (Json.obj [("fields", Json.obj [("name", Json.str "X")])])
      = Except.error PyErr.keyError := rfl

/-- C8 (amended): the fallbacks are independent and per-field: when
every consulted key is present in the fields object, the derived
place has category equal to the sentinel no category exactly when
group_sic_code_ext is falsy (and the group_sic_code_name_ext value
otherwise), address equal to the sentinel no address exactly when the
address value is falsy (and that value otherwise), and city equal to
the sentinel no city exactly when the city value is falsy, each field
independent of the truthiness of the others; when group_sic_code_ext
is falsy the group_sic_code_name_ext key is never consulted and may
be absent; but a consulted key that is entirely absent from the
fields object makes the derivation raise KeyError, which
propagates. -/
theorem nearby_place_fallbacks :
    (∀ (fl : List (String × Json)) (nm g gn a c : Json),
        dictLookup fl "name" = some nm →
        dictLookup fl "group_sic_code_ext" = some g →
        dictLookup fl "group_sic_code_name_ext" = some gn →
        dictLookup fl "address" = some a →
        dictLookup fl "city" = some c →
        derive_nearby_place (Json.obj [("fields", Json.obj fl)])
          = Except.ok ⟨nm,
              if truthy g then gn else Json.str "no category",
              if truthy a then a else Json.str "no address",
              if truthy c then c else Json.str "no city"⟩) ∧
    (∀ (fl : List (String × Json)) (nm g a c : Json),
        dictLookup fl "name" = some nm →
        dictLookup fl "group_sic_code_ext" = some g → truthy g = false →
        dictLookup fl "address" = some a →
        dictLookup fl "city" = some c →
        derive_nearby_place (Json.obj [("fields", Json.obj fl)])
          = Except.ok ⟨nm, Json.str "no category",
              if truthy a then a else Json.str "no address",
              if truthy c then c else Json.str "no city"⟩) ∧
    (∀ (fl : List (String × Json)) (nm : Json),
        dictLookup fl "name" = some nm →
        dictLookup fl "group_sic_code_ext" = none →
        derive_nearby_place (Json.obj [("fields", Json.obj fl)])
          = Except.error PyErr.keyError) := by
  refine ⟨?_, ?_, ?_⟩
  · intro fl nm g gn a c hn hg hgn ha hc
    by_cases hgt : truthy g <;>
      simp [derive_nearby_place, getItem, dictLookup, hn, hg, hgn, ha, hc, hgt]
  · intro fl nm g a c hn hg hgf ha hc
    simp [derive_nearby_place, getItem, dictLookup, hn, hg, hgf, ha, hc]
  · intro fl nm hn hg
    simp [derive_nearby_place, getItem, dictLookup, hn, hg]

/-- C8 witness: an entry whose category code is falsy while address
and city are truthy degrades only the category; an entry with a falsy
code, a falsy address, a truthy city and no group_sic_code_name_ext
key degrades category and address; an entry lacking the consulted
category-code key raises KeyError. -/
theorem nearby_place_fallbacks_witness :
    dictLookup [("name", Json.str "X"), ("group_sic_code_ext", Json.str ""),
        ("group_sic_code_name_ext", Json.str "Cafe"),
        ("address", Json.str "1 Main"), ("city", Json.str "Ann Arbor")] "name"
      = some (Json.str "X") ∧
    derive_nearby_place (Json.obj [("fields",
        Json.obj [("name", Json.str "X"), ("group_sic_code_ext", Json.str ""),
          ("group_sic_code_name_ext", Json.str "Cafe"),
          ("address", Json.str "1 Main"), ("city", Json.str "Ann Arbor")])])
      = Except.ok ⟨Json.str "X", Json.str "no category", Json.str "1 Main",
          Json.str "Ann Arbor"⟩ ∧
    dictLookup [("name", Json.str "Y"), ("group_sic_code_ext", Json.null),
        ("address", Json.str ""), ("city", Json.str "Z")] "group_sic_code_ext"
      = some Json.null ∧
    derive_nearby_place (Json.obj [("fields",
        Json.obj [("name", Json.str "Y"), ("group_sic_code_ext", Json.null),
          ("address", Json.str ""), ("city", Json.str "Z")])])
      = Except.ok ⟨Json.str "Y", Json.str "no category", Json.str "no address",
          Json.str "Z"⟩ ∧
    dictLookup [("name", Json.str "W")] "group_sic_code_ext" = none ∧
    derive_nearby_place (Json.obj [("fields", Json.obj [("name", Json.str "W")])])
      = Except.error PyErr.keyError :=
  ⟨rfl,
   nearby_place_fallbacks.1
     [("name", Json.str "X"), ("group_sic_code_ext", Json.str ""),
      ("group_sic_code_name_ext", Json.str "Cafe"),
      ("address", Json.str "1 Main"), ("city", Json.str "Ann Arbor")]
     (Json.str "X") (Json.str "") (Json.str "Cafe") (Json.str "1 Main")
     (Json.str "Ann Arbor") rfl rfl rfl rfl rfl,
   rfl,
   nearby_place_fallbacks.2.1
     [("name", Json.str "Y"), ("group_sic_code_ext", Json.null),
      ("address", Json.str ""), ("city", Json.str "Z")]
     (Json.str "Y") Json.null (Json.str "") (Json.str "Z") rfl rfl rfl rfl rfl,
   rfl,
   nearby_place_fallbacks.2.2 [("name", Json.str "W")] (Json.str "W") rfl rfl⟩

/-- C9: evaluating the inner selection loop at the numeric input 0,
which is outside the 1-based range of a two-site listing, selects the
last listed site (the guard only bounds the input from above and
Python resolves index -1 to the final element) and goes on to the
nearby-places lookup, instead of reporting the invalid selection and
re-prompting. -/
theorem inner_loop_zero_selects_last :
    inner_loop_step "0" ["site one", "site two"] = StepResult.selected "site two" ∧
    inner_loop_step "3" ["site one", "site two"] = StepResult.outOfRange := by
  constructor <;> rfl

/-- C10 (amended): the process-start in-memory mapping backs the
URL-keyed fetches, but get_nearby_places re-loads the cache file from
disk on every call (the local CACHE_DICT = open_cache() at line 269):
its result and its network behavior depend only on the file, not on
the in-memory mapping, and the in-memory mapping is left untouched by
the call, so the cache file is not loaded exactly once per process. -/
theorem get_nearby_places_reloads_disk (api_key : String)
    (netJson : List (String × String) → Json) (site : NationalSite)
    (mem mem2 : CacheMap) (disk : FileState) :
    (get_nearby_places api_key netJson site ⟨mem, disk⟩).value
      = (get_nearby_places api_key netJson site ⟨mem2, disk⟩).value ∧
    (get_nearby_places api_key netJson site ⟨mem, disk⟩).netCalls
      = (get_nearby_places api_key netJson site ⟨mem2, disk⟩).netCalls ∧
    (get_nearby_places api_key netJson site ⟨mem, disk⟩).state.disk
      = (get_nearby_places api_key netJson site ⟨mem2, disk⟩).state.disk ∧
    (get_nearby_places api_key netJson site ⟨mem, disk⟩).state.mem = mem := by
  cases h : dictLookup (open_cache disk)
      (construct_unique_key mapquest_url (mapquest_params api_key site)) with
  | none => simp [get_nearby_places, h]
  | some v => simp [get_nearby_places, h]

/-- C10 counterexample: a concrete process state whose in-memory
mapping already holds the composite key with a cached value while the
cache file is absent; get_nearby_places ignores the in-memory entry,
performs a network request and returns the network value, so a fetch
operation does not consult the mapping loaded at process start. -/
theorem get_nearby_places_ignores_memory_counterexample :
    dictLookup
        [(construct_unique_key mapquest_url
            (mapquest_params "k" ⟨"c", "n", "a", "z", "p"⟩),
          CacheVal.json (Json.str "cached"))]
        (construct_unique_key mapquest_url
          (mapquest_params "k" ⟨"c", "n", "a", "z", "p"⟩))
      = some (CacheVal.json (Json.str "cached")) ∧
    (get_nearby_places "k" (fun _ => Json.null) ⟨"c", "n", "a", "z", "p"⟩
        ⟨[(construct_unique_key mapquest_url
              (mapquest_params "k" ⟨"c", "n", "a", "z", "p"⟩),
           CacheVal.json (Json.str "cached"))], FileState.absent⟩).netCalls = 1 ∧
    (get_nearby_places "k" (fun _ => Json.null) ⟨"c", "n", "a", "z", "p"⟩
        ⟨[(construct_unique_key mapquest_url
              (mapquest_params "k" ⟨"c", "n", "a", "z", "p"⟩),
           CacheVal.json (Json.str "cached"))], FileState.absent⟩).value
      = CacheVal.json Json.null ∧
    CacheVal.json Json.null ≠ CacheVal.json (Json.str "cached") := by
  refine ⟨by simp [dictLookup], rfl, rfl, fun h => ?_⟩
  exact Json.noConfusion (CacheVal.json.inj h)
